import Mathlib

/-!
# Verification of the witness-sized (non-fixed) type-layout engine

This development embeds `lib/IRGen/NonFixedTypeInfo.h`: the CRTP class
`WitnessSizedTypeInfo`, whose methods emit LLVM IR that queries a type's
value witness table at run time for size, alignment mask and stride, and
that allocates values either in a reference-counted box or in a fixed-size
stack buffer with transparent spill to the heap.

The embedding has two layers:

* an *emission* layer: each method is a function from an `IRGenFunction`
  state (the list of instructions emitted so far, plus a fresh-value
  counter) to a result value and an updated state, mirroring the C++
  member functions instruction by instruction;
* a *runtime* layer: emitted values are evaluated against a `TypeEnv`
  assigning every concrete type its value witness table, so that the
  values loaded from the witness table can be reasoned about.

The runtime entry points reached by `emitAllocateBufferCall` /
`emitDeallocateBufferCall` are not part of the excerpt; where a claim is
about their behaviour they are modelled from the spec, and each such
definition says so in its doc comment.
-/

namespace Swift
namespace IRGen

/-- A concrete (canonical) type handle. Opaque to the layout engine, so a
bare identifier suffices. -/
abbrev CanType := Nat

/-- An emitted LLVM value, identified by the order in which it was
emitted inside the current function. -/
abbrev ValueId := Nat

/-- The fragment of LLVM types the header touches: the fixed-buffer type
(`IGM.getFixedBufferTy()`), a type-info's storage type, and pointers. -/
inductive LLVMTy where
  | fixedBuffer : LLVMTy
  | storage (n : Nat) : LLVMTy
  | ptrTo (t : LLVMTy) : LLVMTy
deriving DecidableEq

/-- The slice of `IRGenModule` the header consumes: the fixed buffer's
size and alignment, which are per-module constants (three pointers'
worth on real targets), not per-type data. -/
structure IRGenModule where
  fixedBufferSize : Nat
  fixedBufferAlignment : Nat
deriving DecidableEq

/-- `IGM.getFixedBufferTy()`: the LLVM type of a fixed-size value
buffer; a module-level constant, independent of any `CanType`. -/
def IRGenModule.getFixedBufferTy (_ : IRGenModule) : LLVMTy :=
  .fixedBuffer

/-- `getFixedBufferAlignment(IGM)`: the alignment of a fixed-size value
buffer; a module-level constant, independent of any `CanType`. -/
def getFixedBufferAlignment (igm : IRGenModule) : Nat :=
  igm.fixedBufferAlignment

/-- The instructions and runtime calls `WitnessSizedTypeInfo` emits. -/
inductive Instr where
  | alloca (ty : LLVMTy) (align : Nat) (nm : String) : Instr
  | typeMetadataRef (T : CanType) : Instr
  | valueWitnessTableRef (metadata : ValueId) : Instr
  | loadOfSize (wtable : ValueId) : Instr
  | loadOfAlignmentMask (wtable : ValueId) : Instr
  | loadOfStride (wtable : ValueId) : Instr
  | loadOfIsInline (wtable : ValueId) : Instr
  | allocateBufferCall (metadata : ValueId) (buffer : ValueId) : Instr
  | deallocateBufferCall (metadata : ValueId) (buffer : ValueId) : Instr
  | allocBoxCall (metadata : ValueId) : Instr
  | bitCast (v : ValueId) (ty : LLVMTy) : Instr
deriving DecidableEq

/-- `IRGenFunction`: the emission state. `instrs` records each emitted
instruction with the id of the first value it defines; `next` is the
next fresh value id. -/
structure IRGenFunction where
  IGM : IRGenModule
  instrs : List (ValueId × Instr)
  next : ValueId
deriving DecidableEq

/-- Emit an instruction defining one value; return the value's id. -/
def IRGenFunction.emit1 (s : IRGenFunction) (i : Instr) :
    ValueId × IRGenFunction :=
  (s.next, { s with instrs := s.instrs ++ [(s.next, i)], next := s.next + 1 })

/-- Emit an instruction defining no value (a void runtime call). -/
def IRGenFunction.emit0 (s : IRGenFunction) (i : Instr) : IRGenFunction :=
  { s with instrs := s.instrs ++ [(s.next, i)] }

/-- Emit an instruction defining two values (the `allocBox` runtime call
returns the box and its payload address). -/
def IRGenFunction.emit2 (s : IRGenFunction) (i : Instr) :
    (ValueId × ValueId) × IRGenFunction :=
  ((s.next, s.next + 1),
   { s with instrs := s.instrs ++ [(s.next, i)], next := s.next + 2 })

/-- An `Address`: a pointer value (the C++ `Address` also carries an
alignment, which no claim consults, so only the pointer is kept). -/
structure Address where
  id : ValueId
deriving DecidableEq

/-- `OwnedAddress`: a payload address together with its owning box. -/
structure OwnedAddress where
  address : Address
  owner : ValueId
deriving DecidableEq

/-- `ContainedAddress`: the fixed buffer together with the payload
address the buffer-allocation entry point returned. -/
structure ContainedAddress where
  buffer : Address
  address : Address
deriving DecidableEq

/-- `IGF.emitTypeMetadataRef(T)`. -/
def IRGenFunction.emitTypeMetadataRef (s : IRGenFunction) (T : CanType) :
    ValueId × IRGenFunction :=
  s.emit1 (.typeMetadataRef T)

/-- `IGF.createAlloca(ty, align, name)`. -/
def IRGenFunction.createAlloca (s : IRGenFunction) (ty : LLVMTy)
    (align : Nat) (nm : String) : ValueId × IRGenFunction :=
  s.emit1 (.alloca ty align nm)

/-- `IGF.emitValueWitnessTableRefForMetadata(metadata)`. -/
def IRGenFunction.emitValueWitnessTableRefForMetadata (s : IRGenFunction)
    (metadata : ValueId) : ValueId × IRGenFunction :=
  s.emit1 (.valueWitnessTableRef metadata)

/-- `emitLoadOfSize(IGF, wtable)` from GenOpaque. -/
def emitLoadOfSize (s : IRGenFunction) (wtable : ValueId) :
    ValueId × IRGenFunction :=
  s.emit1 (.loadOfSize wtable)

/-- `emitLoadOfAlignmentMask(IGF, wtable)` from GenOpaque. -/
def emitLoadOfAlignmentMask (s : IRGenFunction) (wtable : ValueId) :
    ValueId × IRGenFunction :=
  s.emit1 (.loadOfAlignmentMask wtable)

/-- `emitLoadOfStride(IGF, wtable)` from GenOpaque. -/
def emitLoadOfStride (s : IRGenFunction) (wtable : ValueId) :
    ValueId × IRGenFunction :=
  s.emit1 (.loadOfStride wtable)

/-- `emitLoadOfIsInline(IGF, wtable)` from GenOpaque. -/
def emitLoadOfIsInline (s : IRGenFunction) (wtable : ValueId) :
    ValueId × IRGenFunction :=
  s.emit1 (.loadOfIsInline wtable)

/-- `emitAllocateBufferCall(IGF, metadata, buffer)` from GenOpaque:
calls the descriptor's buffer-allocation entry point and yields the
payload address. -/
def emitAllocateBufferCall (s : IRGenFunction) (metadata : ValueId)
    (buffer : Address) : ValueId × IRGenFunction :=
  s.emit1 (.allocateBufferCall metadata buffer.id)

/-- `emitDeallocateBufferCall(IGF, metadata, buffer)` from GenOpaque:
calls the descriptor's buffer-deallocation entry point (void). -/
def emitDeallocateBufferCall (s : IRGenFunction) (metadata : ValueId)
    (buffer : Address) : IRGenFunction :=
  s.emit0 (.deallocateBufferCall metadata buffer.id)

/-- `IGF.emitAllocBoxCall(metadata, box, address)`: calls the `allocBox`
runtime entry point, yielding the box and its payload address. -/
def IRGenFunction.emitAllocBoxCall (s : IRGenFunction) (metadata : ValueId) :
    (ValueId × ValueId) × IRGenFunction :=
  s.emit2 (.allocBoxCall metadata)

/-- The fields of `WitnessSizedTypeInfo` set by its constructor: the
storage type and the static alignment/POD/bitwise-takable bits. -/
structure WitnessSizedTypeInfo where
  storageType : LLVMTy
  align : Nat
  pod : Bool
  bitwiseTakable : Bool
deriving DecidableEq

namespace WitnessSizedTypeInfo

/-- `getAsBitCastAddress`: bit-cast a pointer to a pointer to this
type's storage type and treat it as an address of this type. -/
def getAsBitCastAddress (ti : WitnessSizedTypeInfo) (s : IRGenFunction)
    (addr : ValueId) : Address × IRGenFunction :=
  let r := s.emit1 (.bitCast addr (.ptrTo ti.storageType))
  (⟨r.1⟩, r.2)

/-- `static bool isFixed() { return false; }`. -/
def isFixed : Bool := false

/-- `allocateBox`: emit the type's metadata ref, call the `allocBox`
runtime entry point with it, and return the bit-cast payload address
paired with the owning box. -/
def allocateBox (ti : WitnessSizedTypeInfo) (s : IRGenFunction)
    (T : CanType) (_nm : String) : OwnedAddress × IRGenFunction :=
  let m := s.emitTypeMetadataRef T
  let ba := m.2.emitAllocBoxCall m.1
  let p := ti.getAsBitCastAddress ba.2 ba.1.2
  (⟨p.1, ba.1.1⟩, p.2)

/-- `allocateStack`: create a fixed-size buffer (an alloca of the
module's fixed-buffer type and alignment), emit the type's metadata ref,
call the buffer-allocation entry point on the buffer, and return the
buffer with the bit-cast payload address. -/
def allocateStack (ti : WitnessSizedTypeInfo) (s : IRGenFunction)
    (T : CanType) (nm : String) : ContainedAddress × IRGenFunction :=
  let b := s.createAlloca s.IGM.getFixedBufferTy (getFixedBufferAlignment s.IGM) nm
  let m := b.2.emitTypeMetadataRef T
  let a := emitAllocateBufferCall m.2 m.1 ⟨b.1⟩
  let p := ti.getAsBitCastAddress a.2 a.1
  (⟨⟨b.1⟩, p.1⟩, p.2)

/-- `deallocateStack`: emit the type's metadata ref and call the
buffer-deallocation entry point on the given buffer. -/
def deallocateStack (_ti : WitnessSizedTypeInfo) (s : IRGenFunction)
    (buffer : Address) (T : CanType) : IRGenFunction :=
  let m := s.emitTypeMetadataRef T
  emitDeallocateBufferCall m.2 m.1 buffer

/-- `getValueWitnessTable`: metadata ref, then witness-table ref. -/
def getValueWitnessTable (_ti : WitnessSizedTypeInfo) (s : IRGenFunction)
    (T : CanType) : ValueId × IRGenFunction :=
  let m := s.emitTypeMetadataRef T
  m.2.emitValueWitnessTableRefForMetadata m.1

/-- `getSizeAndAlignmentMask`: one witness-table fetch, two loads. -/
def getSizeAndAlignmentMask (ti : WitnessSizedTypeInfo) (s : IRGenFunction)
    (T : CanType) : (ValueId × ValueId) × IRGenFunction :=
  let w := ti.getValueWitnessTable s T
  let sz := emitLoadOfSize w.2 w.1
  let al := emitLoadOfAlignmentMask sz.2 w.1
  ((sz.1, al.1), al.2)

/-- `getSizeAndAlignmentMaskAndStride`: one witness-table fetch, three
loads. -/
def getSizeAndAlignmentMaskAndStride (ti : WitnessSizedTypeInfo)
    (s : IRGenFunction) (T : CanType) :
    (ValueId × ValueId × ValueId) × IRGenFunction :=
  let w := ti.getValueWitnessTable s T
  let sz := emitLoadOfSize w.2 w.1
  let al := emitLoadOfAlignmentMask sz.2 w.1
  let st := emitLoadOfStride al.2 w.1
  ((sz.1, al.1, st.1), st.2)

/-- `getSize`: witness-table fetch, then a load of the size field. -/
def getSize (ti : WitnessSizedTypeInfo) (s : IRGenFunction) (T : CanType) :
    ValueId × IRGenFunction :=
  let w := ti.getValueWitnessTable s T
  emitLoadOfSize w.2 w.1

/-- `getAlignmentMask`: witness-table fetch, then a load of the
alignment-mask field. -/
def getAlignmentMask (ti : WitnessSizedTypeInfo) (s : IRGenFunction)
    (T : CanType) : ValueId × IRGenFunction :=
  let w := ti.getValueWitnessTable s T
  emitLoadOfAlignmentMask w.2 w.1

/-- `getStride`: witness-table fetch, then a load of the stride field. -/
def getStride (ti : WitnessSizedTypeInfo) (s : IRGenFunction) (T : CanType) :
    ValueId × IRGenFunction :=
  let w := ti.getValueWitnessTable s T
  emitLoadOfStride w.2 w.1

/-- `isDynamicallyPackedInline`: witness-table fetch, then a load of the
is-inline flag. -/
def isDynamicallyPackedInline (ti : WitnessSizedTypeInfo)
    (s : IRGenFunction) (T : CanType) : ValueId × IRGenFunction :=
  let w := ti.getValueWitnessTable s T
  emitLoadOfIsInline w.2 w.1

/-- `mayHaveExtraInhabitants`: returns `false` for every module. -/
def mayHaveExtraInhabitants (_ti : WitnessSizedTypeInfo)
    (_igm : IRGenModule) : Bool :=
  false

/-- A fatal, non-recoverable contract violation (`llvm_unreachable`). -/
inductive Fatal where
  | unreachable (msg : String) : Fatal
deriving DecidableEq

/-- `getExtraInhabitantIndex`: `llvm_unreachable` on every input. -/
def getExtraInhabitantIndex (_ti : WitnessSizedTypeInfo)
    (_s : IRGenFunction) (_src : Address) (_T : CanType) :
    Except Fatal (ValueId × IRGenFunction) :=
  .error (.unreachable "dynamic extra inhabitants not supported")

/-- `storeExtraInhabitant`: `llvm_unreachable` on every input. -/
def storeExtraInhabitant (_ti : WitnessSizedTypeInfo)
    (_s : IRGenFunction) (_index : ValueId) (_dest : Address)
    (_T : CanType) : Except Fatal IRGenFunction :=
  .error (.unreachable "dynamic extra inhabitants not supported")

/-- `getStaticSize`: returns the null constant, i.e. no compile-time
size exists. -/
def getStaticSize (_ti : WitnessSizedTypeInfo) (_igm : IRGenModule) :
    Option Nat :=
  none

/-- `getStaticAlignmentMask`: returns the null constant. -/
def getStaticAlignmentMask (_ti : WitnessSizedTypeInfo)
    (_igm : IRGenModule) : Option Nat :=
  none

/-- `getStaticStride`: returns the null constant. -/
def getStaticStride (_ti : WitnessSizedTypeInfo) (_igm : IRGenModule) :
    Option Nat :=
  none

end WitnessSizedTypeInfo

/-- The layout fields of a value witness table, as read through
`emitLoadOfSize` / `emitLoadOfAlignmentMask` / `emitLoadOfStride` /
`emitLoadOfIsInline`. The table is produced by the runtime and never
mutated by this engine. -/
structure ValueWitnessTable where
  size : Nat
  alignmentMask : Nat
  stride : Nat
  isInline : Bool
deriving DecidableEq

/-- A runtime type environment: every concrete type's value witness
table, immutable for the execution being modelled. -/
abbrev TypeEnv := CanType → ValueWitnessTable

/-- The runtime denotation of an emitted value. -/
inductive RVal where
  | metadata (T : CanType) : RVal
  | wtable (T : CanType) : RVal
  | word (n : Nat) : RVal
  | unknown : RVal
deriving DecidableEq

/-- Evaluate one instruction given the denotations of earlier values.
Pointer-producing instructions (allocas, runtime allocation calls,
bit-casts) denote `unknown`: no layout query inspects them. -/
def evalInstr (env : TypeEnv) (f : ValueId → RVal) : Instr → RVal
  | .typeMetadataRef T => .metadata T
  | .valueWitnessTableRef m =>
      match f m with
      | .metadata T => .wtable T
      | _ => .unknown
  | .loadOfSize w =>
      match f w with
      | .wtable T => .word (env T).size
      | _ => .unknown
  | .loadOfAlignmentMask w =>
      match f w with
      | .wtable T => .word (env T).alignmentMask
      | _ => .unknown
  | .loadOfStride w =>
      match f w with
      | .wtable T => .word (env T).stride
      | _ => .unknown
  | .loadOfIsInline w =>
      match f w with
      | .wtable T => .word (if (env T).isInline then 1 else 0)
      | _ => .unknown
  | _ => .unknown

/-- Evaluate a list of emitted instructions in order, extending an
initial assignment of denotations. -/
def evalInstrs (env : TypeEnv) :
    List (ValueId × Instr) → (ValueId → RVal) → (ValueId → RVal)
  | [], f => f
  | p :: rest, f =>
      evalInstrs env rest (fun x => if x = p.1 then evalInstr env f p.2 else f x)

/-- The runtime denotation of a value in an emission state. -/
def denote (env : TypeEnv) (s : IRGenFunction) (v : ValueId) : RVal :=
  evalInstrs env s.instrs (fun _ => .unknown) v

/-- Whether an instruction writes memory or allocates: everything a
layout query is forbidden to emit. -/
def Instr.isSideEffecting : Instr → Bool
  | .alloca _ _ _ => true
  | .allocateBufferCall _ _ => true
  | .deallocateBufferCall _ _ => true
  | .allocBoxCall _ => true
  | _ => false

/-- Whether an instruction fetches a type's descriptor (value witness
table). -/
def Instr.isDescriptorFetch : Instr → Bool
  | .valueWitnessTableRef _ => true
  | _ => false

/-- Modelled from the spec: whether a value of witness table `d` fits
directly in the module's fixed buffer — its size is at most the buffer's
capacity and its alignment is satisfiable by the buffer's alignment.
The predicate itself lives in the runtime's buffer entry points
(`swift_allocBuffer` / `swift_deallocBuffer`), which are outside the
excerpt; the spec states the decision is a pure function of the
descriptor's immutable size and alignment. -/
def fitsInFixedBuffer (igm : IRGenModule) (d : ValueWitnessTable) : Bool :=
  d.size ≤ igm.fixedBufferSize && d.alignmentMask + 1 ≤ igm.fixedBufferAlignment

/-- Modelled from the spec: the runtime-visible state of one fixed
buffer — the pointer word the spill path stores into the region, the
set of live heap cells, and a fresh-cell counter. Heap cells are
allocated at addresses disjoint from the region `[base, base + C)`. -/
structure BufferState where
  slot : Option Nat
  heap : List Nat
  nextCell : Nat
deriving DecidableEq

/-- Modelled from the spec: the descriptor's buffer-allocation entry
point, reached by `emitAllocateBufferCall` but not part of the excerpt.
If the value fits, the payload address is the region itself; otherwise a
heap cell is allocated, a pointer to it is stored inside the region, and
the heap cell's address is returned. -/
def allocateBuffer (igm : IRGenModule) (d : ValueWitnessTable)
    (base : Nat) (st : BufferState) : Nat × BufferState :=
  if fitsInFixedBuffer igm d then
    (base, st)
  else
    let cell := base + igm.fixedBufferSize + st.nextCell
    (cell, { slot := some cell, heap := st.heap ++ [cell],
             nextCell := st.nextCell + 1 })

/-- Modelled from the spec: the descriptor's buffer-deallocation entry
point, reached by `emitDeallocateBufferCall` but not part of the
excerpt. It recomputes the same fits predicate from the descriptor: if
the value was inline the call is a no-op on the region; otherwise it
frees the spilled heap cell whose pointer the region holds. `none`
means a contract violation (no spilled cell to free). -/
def deallocateBuffer (igm : IRGenModule) (d : ValueWitnessTable)
    (_base : Nat) (st : BufferState) : Option BufferState :=
  if fitsInFixedBuffer igm d then
    some st
  else
    match st.slot with
    | some cell =>
        if cell ∈ st.heap then
          some { slot := none, heap := st.heap.erase cell,
                 nextCell := st.nextCell }
        else none
    | none => none

/-- Modelled from the spec: a well-formed value witness table has its
stride equal to its size rounded up to its alignment
(`alignmentMask + 1`). -/
def ValueWitnessTable.WellFormed (d : ValueWitnessTable) : Prop :=
  d.stride = ((d.size + d.alignmentMask) / (d.alignmentMask + 1)) * (d.alignmentMask + 1)

/-! ## Helper lemmas -/

/-- Evaluating a concatenation of instruction lists composes. -/
theorem evalInstrs_append (env : TypeEnv) (a b : List (ValueId × Instr))
    (f : ValueId → RVal) :
    evalInstrs env (a ++ b) f = evalInstrs env b (evalInstrs env a f) := by
  induction a generalizing f with
  | nil => rfl
  | cons p rest ih => simp [evalInstrs, ih]

/-- Rounding up to a positive multiple does not decrease a number. -/
theorem le_roundUp (n k : Nat) : n ≤ ((n + k) / (k + 1)) * (k + 1) := by
  have hd : (k + 1) * ((n + k) / (k + 1)) + (n + k) % (k + 1) = n + k :=
    Nat.div_add_mod (n + k) (k + 1)
  have hm : (n + k) % (k + 1) < k + 1 := Nat.mod_lt _ (Nat.succ_pos k)
  have hc : ((n + k) / (k + 1)) * (k + 1) = (k + 1) * ((n + k) / (k + 1)) :=
    Nat.mul_comm _ _
  omega

/-! ## Claims -/

/-- C10. `isFixed()` returns `false` unconditionally for the
witness-queried implementation. -/
theorem isFixed_false : WitnessSizedTypeInfo.isFixed = false := rfl

/-- C5. For every module state, `getStaticSize`, `getStaticAlignmentMask`
and `getStaticStride` on the witness-queried implementation return no
compile-time constant (the null constant, i.e. "unknown"), for every
type info and regardless of any type's runtime size. -/
theorem static_layout_unknown (ti : WitnessSizedTypeInfo) (igm : IRGenModule) :
    ti.getStaticSize igm = none ∧
    ti.getStaticAlignmentMask igm = none ∧
    ti.getStaticStride igm = none :=
  ⟨rfl, rfl, rfl⟩

/-- C3. The witness-queried implementation reports no extra inhabitants
for every module, and every invocation of the extra-inhabitant read or
write operation takes the defined fatal contract-violation path (the
unreachable diagnostic), never producing a value. -/
theorem extra_inhabitants_rejected (ti : WitnessSizedTypeInfo) :
    (∀ igm : IRGenModule, ti.mayHaveExtraInhabitants igm = false) ∧
    (∀ (s : IRGenFunction) (src : Address) (T : CanType),
      ti.getExtraInhabitantIndex s src T =
        .error (.unreachable "dynamic extra inhabitants not supported")) ∧
    (∀ (s : IRGenFunction) (index : ValueId) (dest : Address) (T : CanType),
      ti.storeExtraInhabitant s index dest T =
        .error (.unreachable "dynamic extra inhabitants not supported")) :=
  ⟨fun _ => rfl, fun _ _ _ => rfl, fun _ _ _ _ => rfl⟩

/-- A concrete type info used to instantiate theorems at closed inputs. -/
def tiEx : WitnessSizedTypeInfo := ⟨.storage 0, 8, false, true⟩

/-- A concrete module: fixed buffers of 24 bytes at alignment 8. -/
def igmEx : IRGenModule := ⟨24, 8⟩

/-- A concrete empty emission state over `igmEx`. -/
def sEx : IRGenFunction := ⟨igmEx, [], 0⟩

/-- C8. `allocateBox(T)` emits the metadata ref for `T` and passes it —
and nothing else, in particular no pre-computed size or alignment — to
the `allocBox` runtime entry point; it returns the entry point's payload
address bit-cast to a pointer to the caller's storage type for `T`,
paired with the owning box handle. -/
theorem allocateBox_calls_entry_point (ti : WitnessSizedTypeInfo)
    (s : IRGenFunction) (T : CanType) (nm : String) :
    (ti.allocateBox s T nm).2.instrs = s.instrs ++
      [(s.next, .typeMetadataRef T),
       (s.next + 1, .allocBoxCall s.next),
       (s.next + 3, .bitCast (s.next + 2) (.ptrTo ti.storageType))] ∧
    (ti.allocateBox s T nm).1 = ⟨⟨s.next + 3⟩, s.next + 1⟩ := by
  constructor <;>
    simp [WitnessSizedTypeInfo.allocateBox,
      WitnessSizedTypeInfo.getAsBitCastAddress,
      IRGenFunction.emitTypeMetadataRef, IRGenFunction.emitAllocBoxCall,
      IRGenFunction.emit1, IRGenFunction.emit2]

/-- C2 counterexample. The claim says `allocateStack` takes a
caller-supplied memory region as the fixed buffer. Formalised: the
returned buffer address is a value that already existed in the emission
state before the call (its id is below the state's fresh-value counter).
At the concrete empty state this is false: the buffer is a fresh alloca
created by `allocateStack` itself, not a value supplied by the caller. -/
theorem allocateStack_region_not_caller_supplied :
    ¬ (WitnessSizedTypeInfo.allocateStack tiEx sEx 0 "tmp").1.buffer.id < sEx.next := by
  decide

/-- C2 amended. `allocateStack` itself creates the fixed buffer region —
a stack allocation whose type and alignment are the module's single
global constant pair, identical across all call sites over that module
and independent of `T` — and invokes the descriptor's buffer-allocation
entry point, passing that region's address and `T`'s metadata. -/
theorem allocateStack_fixed_buffer_global_constants
    (ti : WitnessSizedTypeInfo) (s : IRGenFunction) (T : CanType)
    (nm : String) :
    (ti.allocateStack s T nm).2.instrs = s.instrs ++
      [(s.next, .alloca s.IGM.getFixedBufferTy (getFixedBufferAlignment s.IGM) nm),
       (s.next + 1, .typeMetadataRef T),
       (s.next + 2, .allocateBufferCall (s.next + 1) s.next),
       (s.next + 3, .bitCast (s.next + 2) (.ptrTo ti.storageType))] ∧
    (ti.allocateStack s T nm).1.buffer = ⟨s.next⟩ := by
  constructor <;>
    simp [WitnessSizedTypeInfo.allocateStack,
      WitnessSizedTypeInfo.getAsBitCastAddress,
      IRGenFunction.emitTypeMetadataRef, IRGenFunction.createAlloca,
      emitAllocateBufferCall, IRGenFunction.emit1]

/-- C4. Each layout query emits exactly a metadata ref for `T`, a
witness-table fetch from that metadata, and a load of the corresponding
descriptor field — so its result denotes the field of `T`'s descriptor
as found in the environment at the time of the call, for every
environment (hence never a cached compile-time constant) — and the
emitted instructions include no store, allocation or runtime call (no
side effects). -/
theorem layout_queries_read_descriptor (ti : WitnessSizedTypeInfo)
    (env : TypeEnv) (s : IRGenFunction) (T : CanType) :
    denote env (ti.getSize s T).2 (ti.getSize s T).1 = .word (env T).size ∧
    (ti.getSize s T).2.instrs = s.instrs ++
      [(s.next, .typeMetadataRef T),
       (s.next + 1, .valueWitnessTableRef s.next),
       (s.next + 2, .loadOfSize (s.next + 1))] ∧
    ((ti.getSize s T).2.instrs.drop s.instrs.length).all
      (fun p => !p.2.isSideEffecting) = true ∧
    denote env (ti.getAlignmentMask s T).2 (ti.getAlignmentMask s T).1 =
      .word (env T).alignmentMask ∧
    (ti.getAlignmentMask s T).2.instrs = s.instrs ++
      [(s.next, .typeMetadataRef T),
       (s.next + 1, .valueWitnessTableRef s.next),
       (s.next + 2, .loadOfAlignmentMask (s.next + 1))] ∧
    ((ti.getAlignmentMask s T).2.instrs.drop s.instrs.length).all
      (fun p => !p.2.isSideEffecting) = true ∧
    denote env (ti.getStride s T).2 (ti.getStride s T).1 =
      .word (env T).stride ∧
    (ti.getStride s T).2.instrs = s.instrs ++
      [(s.next, .typeMetadataRef T),
       (s.next + 1, .valueWitnessTableRef s.next),
       (s.next + 2, .loadOfStride (s.next + 1))] ∧
    ((ti.getStride s T).2.instrs.drop s.instrs.length).all
      (fun p => !p.2.isSideEffecting) = true := by
  refine ⟨?_, ?_, ?_, ?_, ?_, ?_, ?_, ?_, ?_⟩ <;>
  simp [WitnessSizedTypeInfo.getSize, WitnessSizedTypeInfo.getAlignmentMask,
    WitnessSizedTypeInfo.getStride, WitnessSizedTypeInfo.getValueWitnessTable,
    IRGenFunction.emitTypeMetadataRef,
    IRGenFunction.emitValueWitnessTableRefForMetadata,
    emitLoadOfSize, emitLoadOfAlignmentMask, emitLoadOfStride,
    IRGenFunction.emit1, denote, evalInstrs_append, evalInstrs, evalInstr,
    List.drop_left, Instr.isSideEffecting]

/-- C6. The batched queries denote exactly the same size, alignment-mask
and stride words as the corresponding individual queries (all are the
fields of `T`'s descriptor in the environment), each batched form
performs exactly one descriptor fetch, and neither emits any
side-effecting instruction. -/
theorem batched_queries_agree (ti : WitnessSizedTypeInfo) (env : TypeEnv)
    (s : IRGenFunction) (T : CanType) :
    denote env (ti.getSizeAndAlignmentMaskAndStride s T).2
        (ti.getSizeAndAlignmentMaskAndStride s T).1.1 = .word (env T).size ∧
    denote env (ti.getSizeAndAlignmentMaskAndStride s T).2
        (ti.getSizeAndAlignmentMaskAndStride s T).1.2.1 =
      .word (env T).alignmentMask ∧
    denote env (ti.getSizeAndAlignmentMaskAndStride s T).2
        (ti.getSizeAndAlignmentMaskAndStride s T).1.2.2 =
      .word (env T).stride ∧
    denote env (ti.getSizeAndAlignmentMask s T).2
        (ti.getSizeAndAlignmentMask s T).1.1 = .word (env T).size ∧
    denote env (ti.getSizeAndAlignmentMask s T).2
        (ti.getSizeAndAlignmentMask s T).1.2 = .word (env T).alignmentMask ∧
    denote env (ti.getSizeAndAlignmentMaskAndStride s T).2
        (ti.getSizeAndAlignmentMaskAndStride s T).1.1 =
      denote env (ti.getSize s T).2 (ti.getSize s T).1 ∧
    denote env (ti.getSizeAndAlignmentMaskAndStride s T).2
        (ti.getSizeAndAlignmentMaskAndStride s T).1.2.1 =
      denote env (ti.getAlignmentMask s T).2 (ti.getAlignmentMask s T).1 ∧
    denote env (ti.getSizeAndAlignmentMaskAndStride s T).2
        (ti.getSizeAndAlignmentMaskAndStride s T).1.2.2 =
      denote env (ti.getStride s T).2 (ti.getStride s T).1 ∧
    denote env (ti.getSizeAndAlignmentMask s T).2
        (ti.getSizeAndAlignmentMask s T).1.1 =
      denote env (ti.getSize s T).2 (ti.getSize s T).1 ∧
    denote env (ti.getSizeAndAlignmentMask s T).2
        (ti.getSizeAndAlignmentMask s T).1.2 =
      denote env (ti.getAlignmentMask s T).2 (ti.getAlignmentMask s T).1 ∧
    ((ti.getSizeAndAlignmentMaskAndStride s T).2.instrs.drop
        s.instrs.length).countP (fun p => p.2.isDescriptorFetch) = 1 ∧
    ((ti.getSizeAndAlignmentMask s T).2.instrs.drop
        s.instrs.length).countP (fun p => p.2.isDescriptorFetch) = 1 ∧
    ((ti.getSizeAndAlignmentMaskAndStride s T).2.instrs.drop
        s.instrs.length).all (fun p => !p.2.isSideEffecting) = true ∧
    ((ti.getSizeAndAlignmentMask s T).2.instrs.drop
        s.instrs.length).all (fun p => !p.2.isSideEffecting) = true := by
  refine ⟨?_, ?_, ?_, ?_, ?_, ?_, ?_, ?_, ?_, ?_, ?_, ?_, ?_, ?_⟩ <;>
  simp [WitnessSizedTypeInfo.getSizeAndAlignmentMaskAndStride,
    WitnessSizedTypeInfo.getSizeAndAlignmentMask,
    WitnessSizedTypeInfo.getSize, WitnessSizedTypeInfo.getAlignmentMask,
    WitnessSizedTypeInfo.getStride, WitnessSizedTypeInfo.getValueWitnessTable,
    IRGenFunction.emitTypeMetadataRef,
    IRGenFunction.emitValueWitnessTableRefForMetadata,
    emitLoadOfSize, emitLoadOfAlignmentMask, emitLoadOfStride,
    IRGenFunction.emit1, denote, evalInstrs_append, evalInstrs, evalInstr,
    List.drop_left, Instr.isDescriptorFetch, Instr.isSideEffecting]

/-- C9. For a well-formed descriptor (stride is size rounded up to
alignment, as the runtime guarantees), the words denoted by the
program's layout queries satisfy `stride ≥ size` and
`stride % (alignmentMask + 1) = 0`. -/
theorem stride_invariant (ti : WitnessSizedTypeInfo) (env : TypeEnv)
    (s : IRGenFunction) (T : CanType) (h : (env T).WellFormed) :
    denote env (ti.getSize s T).2 (ti.getSize s T).1 = .word (env T).size ∧
    denote env (ti.getAlignmentMask s T).2 (ti.getAlignmentMask s T).1 =
      .word (env T).alignmentMask ∧
    denote env (ti.getStride s T).2 (ti.getStride s T).1 =
      .word (env T).stride ∧
    (env T).size ≤ (env T).stride ∧
    (env T).stride % ((env T).alignmentMask + 1) = 0 := by
  refine ⟨?_, ?_, ?_, ?_, ?_⟩
  case _ | _ | _ =>
    simp [WitnessSizedTypeInfo.getSize, WitnessSizedTypeInfo.getAlignmentMask,
      WitnessSizedTypeInfo.getStride, WitnessSizedTypeInfo.getValueWitnessTable,
      IRGenFunction.emitTypeMetadataRef,
      IRGenFunction.emitValueWitnessTableRefForMetadata,
      emitLoadOfSize, emitLoadOfAlignmentMask, emitLoadOfStride,
      IRGenFunction.emit1, denote, evalInstrs_append, evalInstrs, evalInstr]
  case _ =>
    rw [ValueWitnessTable.WellFormed] at h
    rw [h]
    exact le_roundUp _ _
  case _ =>
    rw [ValueWitnessTable.WellFormed] at h
    rw [h]
    exact Nat.mul_mod_left _ _

/-- A well-formed descriptor for witness instantiation: size 5,
alignment 4 (mask 3), stride 8. -/
def envEx : TypeEnv := fun _ => ⟨5, 3, 8, true⟩

/-- C9 witness: the stride invariant at the concrete environment
`envEx`. -/
theorem stride_invariant_witness :
    (envEx 0).size ≤ (envEx 0).stride ∧
    (envEx 0).stride % ((envEx 0).alignmentMask + 1) = 0 :=
  (stride_invariant tiEx envEx sEx 0 rfl).2.2.2

/-- A descriptor that fits `igmEx`'s 24-byte, 8-aligned fixed buffer. -/
def dFit : ValueWitnessTable := ⟨16, 7, 16, true⟩

/-- A descriptor too large for `igmEx`'s fixed buffer. -/
def dSpill : ValueWitnessTable := ⟨40, 7, 40, false⟩

/-- An empty buffer state. -/
def stEx : BufferState := ⟨none, [], 0⟩

/-- A buffer state right after a spilled allocation at base 100 over
`igmEx`: the heap cell at 124 is live and its pointer sits in the
region. -/
def stSpilled : BufferState := ⟨some 124, [124], 1⟩

/-- C1. For the buffer-allocation entry point invoked by
`allocateStack`: if the descriptor fits the fixed buffer (size at most
the capacity and alignment satisfiable), the payload address lies inside
the region; if its size exceeds the capacity, the payload address lies
at or beyond the region's end, in a heap cell whose pointer is stored
inside the region; and in both cases the matching deallocation call on
the resulting state succeeds, through the very same call, so the caller
never distinguishes the two cases. -/
theorem allocate_buffer_spill_transparency (igm : IRGenModule)
    (d : ValueWitnessTable) (base : Nat) (st : BufferState)
    (hC : 0 < igm.fixedBufferSize) :
    (fitsInFixedBuffer igm d = true →
      base ≤ (allocateBuffer igm d base st).1 ∧
      (allocateBuffer igm d base st).1 < base + igm.fixedBufferSize) ∧
    (igm.fixedBufferSize < d.size →
      base + igm.fixedBufferSize ≤ (allocateBuffer igm d base st).1 ∧
      (allocateBuffer igm d base st).2.slot =
        some (allocateBuffer igm d base st).1) ∧
    (deallocateBuffer igm d base (allocateBuffer igm d base st).2).isSome
      = true := by
  refine ⟨?_, ?_, ?_⟩
  · intro h
    have hall : allocateBuffer igm d base st = (base, st) := by
      simp [allocateBuffer, h]
    rw [hall]
    constructor
    · exact Nat.le_refl base
    · omega
  · intro h
    have hle : ¬ d.size ≤ igm.fixedBufferSize := by omega
    have hfit : fitsInFixedBuffer igm d = false := by
      simp [fitsInFixedBuffer, hle]
    have hall : allocateBuffer igm d base st =
        (base + igm.fixedBufferSize + st.nextCell,
         ⟨some (base + igm.fixedBufferSize + st.nextCell),
          st.heap ++ [base + igm.fixedBufferSize + st.nextCell],
          st.nextCell + 1⟩) := by
      simp [allocateBuffer, hfit]
    rw [hall]
    exact ⟨Nat.le_add_right _ _, rfl⟩
  · by_cases hf : fitsInFixedBuffer igm d = true
    · simp [allocateBuffer, deallocateBuffer, hf]
    · have hf' : fitsInFixedBuffer igm d = false := by
        simpa using hf
      simp [allocateBuffer, deallocateBuffer, hf']

/-- C1 witness: over `igmEx` at base 100, `dFit` is placed inside the
region, `dSpill` outside it with its pointer in the region's slot, and
both deallocations succeed. -/
theorem allocate_buffer_spill_transparency_witness :
    (100 ≤ (allocateBuffer igmEx dFit 100 stEx).1 ∧
      (allocateBuffer igmEx dFit 100 stEx).1 < 100 + igmEx.fixedBufferSize) ∧
    (100 + igmEx.fixedBufferSize ≤ (allocateBuffer igmEx dSpill 100 stEx).1 ∧
      (allocateBuffer igmEx dSpill 100 stEx).2.slot =
        some (allocateBuffer igmEx dSpill 100 stEx).1) ∧
    (deallocateBuffer igmEx dFit 100
        (allocateBuffer igmEx dFit 100 stEx).2).isSome = true ∧
    (deallocateBuffer igmEx dSpill 100
        (allocateBuffer igmEx dSpill 100 stEx).2).isSome = true := by
  refine ⟨?_, ?_, ?_, ?_⟩
  · exact (allocate_buffer_spill_transparency igmEx dFit 100 stEx
      (by decide)).1 (by decide)
  · exact (allocate_buffer_spill_transparency igmEx dSpill 100 stEx
      (by decide)).2.1 (by decide)
  · exact (allocate_buffer_spill_transparency igmEx dFit 100 stEx
      (by decide)).2.2
  · exact (allocate_buffer_spill_transparency igmEx dSpill 100 stEx
      (by decide)).2.2

/-- C7. `deallocateStack` emits exactly a metadata ref for the same `T`
and the descriptor's deallocation entry-point call on the very region
address it was given — no loads, so the engine never inspects the
region's bytes — and that entry point (modelled from the spec) settles
spill-vs-inline by the descriptor's own fits predicate: a no-op on the
state when the value was inline, freeing the spilled heap cell
otherwise. -/
theorem deallocateStack_matched_pairing (ti : WitnessSizedTypeInfo)
    (s : IRGenFunction) (buffer : Address) (T : CanType)
    (igm : IRGenModule) (d : ValueWitnessTable) (base : Nat)
    (st : BufferState) :
    (ti.deallocateStack s buffer T).instrs = s.instrs ++
      [(s.next, .typeMetadataRef T),
       (s.next + 1, .deallocateBufferCall s.next buffer.id)] ∧
    (fitsInFixedBuffer igm d = true →
      deallocateBuffer igm d base st = some st) ∧
    (fitsInFixedBuffer igm d = false → ∀ cell, st.slot = some cell →
      cell ∈ st.heap →
      deallocateBuffer igm d base st =
        some ⟨none, st.heap.erase cell, st.nextCell⟩) := by
  refine ⟨?_, ?_, ?_⟩
  · simp [WitnessSizedTypeInfo.deallocateStack,
      IRGenFunction.emitTypeMetadataRef, emitDeallocateBufferCall,
      IRGenFunction.emit1, IRGenFunction.emit0]
  · intro h
    simp [deallocateBuffer, h]
  · intro h cell hslot hmem
    simp [deallocateBuffer, h, hslot, hmem]

/-- C7 witness: the emitted pairing at the empty state, the inline
no-op for `dFit`, and the heap-cell free for `dSpill` on the spilled
state. -/
theorem deallocateStack_matched_pairing_witness :
    (WitnessSizedTypeInfo.deallocateStack tiEx sEx ⟨0⟩ 0).instrs =
      [(0, .typeMetadataRef 0), (1, .deallocateBufferCall 0 0)] ∧
    deallocateBuffer igmEx dFit 100 stEx = some stEx ∧
    deallocateBuffer igmEx dSpill 100 stSpilled = some ⟨none, [], 1⟩ := by
  refine ⟨?_, ?_, ?_⟩
  · exact (deallocateStack_matched_pairing tiEx sEx ⟨0⟩ 0 igmEx dFit
      100 stEx).1
  · exact (deallocateStack_matched_pairing tiEx sEx ⟨0⟩ 0 igmEx dFit
      100 stEx).2.1 (by decide)
  · exact (deallocateStack_matched_pairing tiEx sEx ⟨0⟩ 0 igmEx dSpill
      100 stSpilled).2.2 (by decide) 124 rfl (by decide)

end IRGen
end Swift
